import Mathlib

/-!
Verification of `containerPruneAction` (cmd/nerdctl/container_prune.go).

The Go function is shallowly embedded as a pure Lean function over an
explicit environment: each fallible collaborator call (`newClient`,
`cmd.Flags().GetBool("force")`, `cmd.Flags().GetString("namespace")`,
`client.Containers(ctx)`) becomes an `Except String` value supplied by the
environment, the confirmation token read by `fmt.Fscanf` becomes a string
field (empty on EOF), and `removeContainer` becomes an environment-supplied
function from the container and its call-site arguments to a result that is
either success, a `statusError`, or any other error.  The run result records
the returned error, every line written to the output stream, every warning
logged, the number of stdin reads, the number of enumeration calls, the
argument list of every removal call, and the `deleted` accumulator.
-/

namespace ContainerPrune

/-- A runtime-managed container instance; the workflow only ever uses its
stable string identifier (`container.ID()` in the Go code). -/
structure Container where
  id : String
deriving DecidableEq, Repr

/-- Outcome of one `removeContainer` call, as classified by the Go code:
`err == nil`, `errors.As(err, &statusError\x7b\x7d)`, or any other error. -/
inductive RemoveResult where
  | ok : RemoveResult
  | statusErr : String → RemoveResult
  | otherErr : String → RemoveResult
deriving DecidableEq, Repr

/-- Arguments of one removal call as made at the call site:
`removeContainer(cmd, ctx, container, ns, false, true)` contributes the
container id, the namespace, and the two trailing boolean arguments.
Modelled from the spec: the external collaborator signature is
`Remove(instance, namespace, force, bestEffort)`, so the fifth and sixth Go
arguments are the per-instance `force` and `bestEffort` flags; the
`removeContainer` implementation itself is outside the reviewed sources. -/
abbrev RemovalCall := String × String × Bool × Bool

/-- Environment of one invocation: results of every external collaborator
interaction the Go function can perform. -/
structure Env where
  newClient : Except String Unit
  getForce : Except String Bool
  confirmToken : String
  getNamespace : Except String String
  containers : Except String (List Container)
  removeContainer : Container → String → Bool → Bool → RemoveResult

/-- Observable result of one invocation. `err = none` models the Go function
returning `nil` (process exit code 0); `err = some e` models a returned
error (non-zero exit). `stdout` lists the strings written to the output
stream in order. -/
structure RunResult where
  err : Option String
  stdout : List String
  warnings : List (String × String)
  inputReads : Nat
  listCalls : Nat
  removalCalls : List RemovalCall
  deleted : List String
deriving DecidableEq, Repr

/-- Model of Go's `strings.ToLower` as used on the confirmation token:
lowercase every character (`'A'..'Z'` map to `'a'..'z'`; no character maps
to `'y'` other than `'y'` and `'Y'`, so the comparison against `"y"` is
exactly Go's). -/
def toLowerGo (s : String) : String := ⟨s.data.map Char.toLower⟩

/-- The fixed confirmation prompt written when `force` is false. -/
def promptText : String :=
  "WARNING! This will remove all stopped containers.\nAre you sure you want to continue? [y/N] "

/-- The header line printed before the deleted identifiers. -/
def deletedHeader : String := "Deleted Containers:"

/-- The removal loop (lines 73–84 of container_prune.go): for each container
in enumeration order, call `removeContainer(cmd, ctx, container, ns, false,
true)`; on success append `container.ID()` to `deleted`; on a `statusError`
silently skip; on any other error log a warning with the container id and
the error.  Returns `(deleted, warnings, removalCalls)`, each in order. -/
def pruneLoop (remove : Container → String → Bool → Bool → RemoveResult)
    (ns : String) :
    List Container → List String × List (String × String) × List RemovalCall
  | [] => ([], [], [])
  | c :: rest =>
    let tail := pruneLoop remove ns rest
    match remove c ns false true with
    | .ok => (c.id :: tail.1, tail.2.1, (c.id, ns, false, true) :: tail.2.2)
    | .statusErr _ => (tail.1, tail.2.1, (c.id, ns, false, true) :: tail.2.2)
    | .otherErr m =>
        (tail.1, (c.id, m) :: tail.2.1, (c.id, ns, false, true) :: tail.2.2)

/-- Shallow embedding of `containerPruneAction` (lines 41–94):
create the client; read the `force` flag; if not forced, print the prompt,
read one token, and return `nil` unless the token lowercases to `"y"`;
read the `namespace` flag; enumerate containers; run the removal loop;
if anything was deleted print the header and one id per line; return `nil`. -/
def containerPruneAction (env : Env) : RunResult :=
  match env.newClient with
  | .error e => ⟨some e, [], [], 0, 0, [], []⟩
  | .ok _ =>
    match env.getForce with
    | .error e => ⟨some e, [], [], 0, 0, [], []⟩
    | .ok force =>
      let gateOut : List String := if force then [] else [promptText]
      let reads : Nat := if force then 0 else 1
      if !force && (toLowerGo env.confirmToken != "y") then
        ⟨none, gateOut, [], reads, 0, [], []⟩
      else
        match env.getNamespace with
        | .error e => ⟨some e, gateOut, [], reads, 0, [], []⟩
        | .ok ns =>
          match env.containers with
          | .error e => ⟨some e, gateOut, [], reads, 1, [], []⟩
          | .ok cs =>
            let r := pruneLoop env.removeContainer ns cs
            let report : List String :=
              if r.1.isEmpty then [] else deletedHeader :: r.1
            ⟨none, gateOut ++ report, r.2.1, reads, 1, r.2.2, r.1⟩

/-- Success test on a removal outcome. -/
def RemoveResult.isOk : RemoveResult → Bool
  | .ok => true
  | _ => false

/-- Containers are determined by their identifier. -/
theorem Container.id_inj {c₁ c₂ : Container} (h : c₁.id = c₂.id) : c₁ = c₂ := by
  cases c₁; cases c₂; cases h; rfl

/-- The deleted list is the in-order ids of containers whose removal
succeeded. -/
theorem pruneLoop_deleted (remove : Container → String → Bool → Bool → RemoveResult)
    (ns : String) (cs : List Container) :
    (pruneLoop remove ns cs).1
      = (cs.filter fun c => (remove c ns false true).isOk).map Container.id := by
  induction cs with
  | nil => rfl
  | cons c rest ih =>
    simp only [pruneLoop, List.filter]
    cases h : remove c ns false true <;>
      simp [RemoveResult.isOk, h, ih]

/-- The warnings are the in-order (id, message) pairs of containers whose
removal failed with a non-status error. -/
theorem pruneLoop_warnings (remove : Container → String → Bool → Bool → RemoveResult)
    (ns : String) (cs : List Container) :
    (pruneLoop remove ns cs).2.1
      = cs.filterMap fun c =>
          match remove c ns false true with
          | .otherErr m => some (c.id, m)
          | _ => none := by
  induction cs with
  | nil => rfl
  | cons c rest ih =>
    simp only [pruneLoop, List.filterMap]
    cases h : remove c ns false true <;> simp [h, ih]

/-- Every enumerated container gets exactly one removal call, in order, with
the namespace and the literal arguments `false, true`. -/
theorem pruneLoop_calls (remove : Container → String → Bool → Bool → RemoveResult)
    (ns : String) (cs : List Container) :
    (pruneLoop remove ns cs).2.2
      = cs.map fun c => ((c.id, ns, false, true) : RemovalCall) := by
  induction cs with
  | nil => rfl
  | cons c rest ih =>
    simp only [pruneLoop, List.map]
    cases h : remove c ns false true <;> simp [h, ih]

/-- Central evaluation lemma: when client creation, the flag reads and
enumeration all succeed and the confirmation gate passes (forced, or token
lowercasing to "y"), the run result is the removal loop's output wrapped in
the report step. -/
theorem run_of_reaches_report (env : Env) (force : Bool) (ns : String)
    (cs : List Container)
    (hc : env.newClient = .ok ())
    (hf : env.getForce = .ok force)
    (hg : force = true ∨ toLowerGo env.confirmToken = "y")
    (hn : env.getNamespace = .ok ns)
    (he : env.containers = .ok cs) :
    containerPruneAction env =
      ⟨none,
       (if force then [] else [promptText])
         ++ (if (pruneLoop env.removeContainer ns cs).1.isEmpty then []
             else deletedHeader :: (pruneLoop env.removeContainer ns cs).1),
       (pruneLoop env.removeContainer ns cs).2.1,
       (if force then 0 else 1), 1,
       (pruneLoop env.removeContainer ns cs).2.2,
       (pruneLoop env.removeContainer ns cs).1⟩ := by
  rcases hg with hg | hg
  · subst hg
    simp [containerPruneAction, hc, hf, hn, he]
  · simp [containerPruneAction, hc, hf, hg, hn, he]

/-- Environment for witnesses: forced run over three containers, of which
"a1" removes cleanly, "b2" is rejected with a status error, and "c3" fails
with an I/O error. -/
def envMix : Env where
  newClient := .ok ()
  getForce := .ok true
  confirmToken := ""
  getNamespace := .ok "default"
  containers := .ok [⟨"a1"⟩, ⟨"b2"⟩, ⟨"c3"⟩]
  removeContainer := fun c _ _ _ =>
    if c.id = "b2" then .statusErr "container is running"
    else if c.id = "c3" then .otherErr "io failure"
    else .ok

/-- C1: at report time the deleted list is exactly, and in attempt order,
the ids of the enumerated containers whose removal returned success, and it
is a subsequence of the enumerated ids. -/
theorem C1_deletedSet_exact (env : Env) (force : Bool) (ns : String)
    (cs : List Container)
    (hc : env.newClient = .ok ())
    (hf : env.getForce = .ok force)
    (hg : force = true ∨ toLowerGo env.confirmToken = "y")
    (hn : env.getNamespace = .ok ns)
    (he : env.containers = .ok cs) :
    (containerPruneAction env).deleted
        = (cs.filter fun c => (env.removeContainer c ns false true).isOk).map
            Container.id
      ∧ (containerPruneAction env).deleted.Sublist (cs.map Container.id) := by
  rw [run_of_reaches_report env force ns cs hc hf hg hn he]
  refine ⟨pruneLoop_deleted _ _ _, ?_⟩
  rw [pruneLoop_deleted]
  exact (List.filter_sublist cs).map Container.id

/-- C1 witness: concrete forced run with mixed removal outcomes. -/
theorem C1_deletedSet_exact_witness :
    (containerPruneAction envMix).deleted
        = (([⟨"a1"⟩, ⟨"b2"⟩, ⟨"c3"⟩] : List Container).filter
            fun c => (envMix.removeContainer c "default" false true).isOk).map
            Container.id
      ∧ (containerPruneAction envMix).deleted.Sublist
          (([⟨"a1"⟩, ⟨"b2"⟩, ⟨"c3"⟩] : List Container).map Container.id) :=
  C1_deletedSet_exact envMix true "default" [⟨"a1"⟩, ⟨"b2"⟩, ⟨"c3"⟩]
    rfl rfl (Or.inl rfl) rfl rfl

/-- C2: when force is false, the fixed prompt is printed, one token is read,
and any token not lowercasing to "y" makes the command return nil with no
enumeration, no removal call and an empty deleted list. -/
theorem C2_gate_declines (env : Env)
    (hc : env.newClient = .ok ())
    (hf : env.getForce = .ok false)
    (hny : toLowerGo env.confirmToken ≠ "y") :
    containerPruneAction env = ⟨none, [promptText], [], 1, 0, [], []⟩ := by
  simp [containerPruneAction, hc, hf, hny]

/-- Environment for witnesses: unforced run declined with token "n". -/
def envDecline : Env where
  newClient := .ok ()
  getForce := .ok false
  confirmToken := "n"
  getNamespace := .ok "default"
  containers := .ok [⟨"a1"⟩]
  removeContainer := fun _ _ _ _ => .ok

/-- C2 witness: declining with token "n". -/
theorem C2_gate_declines_witness :
    containerPruneAction envDecline = ⟨none, [promptText], [], 1, 0, [], []⟩ :=
  C2_gate_declines envDecline rfl rfl (by decide)

/-- C3: if enumeration fails, the command returns that error before any
removal call is made. -/
theorem C3_enumeration_failure_aborts (env : Env) (force : Bool)
    (ns e : String)
    (hc : env.newClient = .ok ())
    (hf : env.getForce = .ok force)
    (hg : force = true ∨ toLowerGo env.confirmToken = "y")
    (hn : env.getNamespace = .ok ns)
    (he : env.containers = .error e) :
    (containerPruneAction env).err = some e
      ∧ (containerPruneAction env).removalCalls = [] := by
  rcases hg with hg | hg
  · subst hg
    simp [containerPruneAction, hc, hf, hn, he]
  · simp [containerPruneAction, hc, hf, hg, hn, he]

/-- Environment for witnesses: forced run whose enumeration fails. -/
def envEnumFail : Env where
  newClient := .ok ()
  getForce := .ok true
  confirmToken := ""
  getNamespace := .ok "default"
  containers := .error "grpc unavailable"
  removeContainer := fun _ _ _ _ => .ok

/-- C3 witness: concrete failed enumeration. -/
theorem C3_enumeration_failure_aborts_witness :
    (containerPruneAction envEnumFail).err = some "grpc unavailable"
      ∧ (containerPruneAction envEnumFail).removalCalls = [] :=
  C3_enumeration_failure_aborts envEnumFail true "default" "grpc unavailable"
    rfl rfl (Or.inl rfl) rfl rfl

/-- C4: a container whose removal is rejected with a status error produces
no warning, its id is never deleted, and every enumerated container is still
attempted. -/
theorem C4_status_error_skipped (env : Env) (force : Bool) (ns : String)
    (cs : List Container) (c : Container) (m : String)
    (hc : env.newClient = .ok ())
    (hf : env.getForce = .ok force)
    (hg : force = true ∨ toLowerGo env.confirmToken = "y")
    (hn : env.getNamespace = .ok ns)
    (he : env.containers = .ok cs)
    (_hmem : c ∈ cs)
    (hst : env.removeContainer c ns false true = .statusErr m) :
    (∀ p ∈ (containerPruneAction env).warnings, p.1 ≠ c.id)
      ∧ c.id ∉ (containerPruneAction env).deleted
      ∧ (containerPruneAction env).removalCalls
          = cs.map fun x => ((x.id, ns, false, true) : RemovalCall) := by
  rw [run_of_reaches_report env force ns cs hc hf hg hn he]
  refine ⟨?_, ?_, pruneLoop_calls _ _ _⟩
  · rintro ⟨x, m'⟩ hp hpc
    rw [pruneLoop_warnings] at hp
    obtain ⟨c', _, hc'⟩ := List.mem_filterMap.mp hp
    revert hc'
    cases h' : env.removeContainer c' ns false true <;> intro hc' <;>
      simp at hc'
    have : c' = c := Container.id_inj (hc'.1.trans hpc)
    rw [this, hst] at h'
    exact absurd h' (by simp)
  · intro hdel
    rw [pruneLoop_deleted] at hdel
    obtain ⟨c', hc'mem, hc'id⟩ := List.mem_map.mp hdel
    have : c' = c := Container.id_inj hc'id
    rw [this] at hc'mem
    have := List.of_mem_filter hc'mem
    rw [hst] at this
    exact absurd this (by simp [RemoveResult.isOk])

/-- C4 witness: in the mixed run, "b2" is status-rejected: no warning names
it, it is not deleted, and all three containers are attempted. -/
theorem C4_status_error_skipped_witness :
    (∀ p ∈ (containerPruneAction envMix).warnings, p.1 ≠ Container.id ⟨"b2"⟩)
      ∧ Container.id ⟨"b2"⟩ ∉ (containerPruneAction envMix).deleted
      ∧ (containerPruneAction envMix).removalCalls
          = ([⟨"a1"⟩, ⟨"b2"⟩, ⟨"c3"⟩] : List Container).map
              fun x => ((x.id, "default", false, true) : RemovalCall) :=
  C4_status_error_skipped envMix true "default" [⟨"a1"⟩, ⟨"b2"⟩, ⟨"c3"⟩]
    ⟨"b2"⟩ "container is running" rfl rfl (Or.inl rfl) rfl rfl
    (by decide) rfl

/-- C5: a container whose removal fails with a non-status error is warned
about (id and error), is never deleted, every enumerated container is still
attempted, and the command still returns nil. -/
theorem C5_other_error_warned (env : Env) (force : Bool) (ns : String)
    (cs : List Container) (c : Container) (m : String)
    (hc : env.newClient = .ok ())
    (hf : env.getForce = .ok force)
    (hg : force = true ∨ toLowerGo env.confirmToken = "y")
    (hn : env.getNamespace = .ok ns)
    (he : env.containers = .ok cs)
    (hmem : c ∈ cs)
    (hoe : env.removeContainer c ns false true = .otherErr m) :
    (c.id, m) ∈ (containerPruneAction env).warnings
      ∧ c.id ∉ (containerPruneAction env).deleted
      ∧ (containerPruneAction env).removalCalls
          = (cs.map fun x => ((x.id, ns, false, true) : RemovalCall))
      ∧ (containerPruneAction env).err = none := by
  rw [run_of_reaches_report env force ns cs hc hf hg hn he]
  refine ⟨?_, ?_, pruneLoop_calls _ _ _, rfl⟩
  · rw [pruneLoop_warnings]
    exact List.mem_filterMap.mpr ⟨c, hmem, by rw [hoe]⟩
  · intro hdel
    rw [pruneLoop_deleted] at hdel
    obtain ⟨c', hc'mem, hc'id⟩ := List.mem_map.mp hdel
    have : c' = c := Container.id_inj hc'id
    rw [this] at hc'mem
    have := List.of_mem_filter hc'mem
    rw [hoe] at this
    exact absurd this (by simp [RemoveResult.isOk])

/-- C5 witness: in the mixed run, "c3" fails with an I/O error: a warning
carries its id and error, it is not deleted, all containers are attempted,
and the command returns nil. -/
theorem C5_other_error_warned_witness :
    ((Container.id ⟨"c3"⟩, "io failure") ∈ (containerPruneAction envMix).warnings)
      ∧ Container.id ⟨"c3"⟩ ∉ (containerPruneAction envMix).deleted
      ∧ (containerPruneAction envMix).removalCalls
          = (([⟨"a1"⟩, ⟨"b2"⟩, ⟨"c3"⟩] : List Container).map
              fun x => ((x.id, "default", false, true) : RemovalCall))
      ∧ (containerPruneAction envMix).err = none :=
  C5_other_error_warned envMix true "default" [⟨"a1"⟩, ⟨"b2"⟩, ⟨"c3"⟩]
    ⟨"c3"⟩ "io failure" rfl rfl (Or.inl rfl) rfl rfl (by decide) rfl

/-- C6: at report time the output stream holds the gate output followed by
nothing when the deleted list is empty, and by the header line then one id
per line, in collection order, when it is not. -/
theorem C6_report_format (env : Env) (force : Bool) (ns : String)
    (cs : List Container)
    (hc : env.newClient = .ok ())
    (hf : env.getForce = .ok force)
    (hg : force = true ∨ toLowerGo env.confirmToken = "y")
    (hn : env.getNamespace = .ok ns)
    (he : env.containers = .ok cs) :
    (containerPruneAction env).stdout
      = (if force then [] else [promptText])
          ++ (if (containerPruneAction env).deleted = [] then []
              else deletedHeader :: (containerPruneAction env).deleted) := by
  rw [run_of_reaches_report env force ns cs hc hf hg hn he]
  cases h : (pruneLoop env.removeContainer ns cs).1 <;> simp [h]

/-- C6 witness: the mixed run prints the header and the single deleted id. -/
theorem C6_report_format_witness :
    (containerPruneAction envMix).stdout
      = ([] : List String)
          ++ (if (containerPruneAction envMix).deleted = [] then []
              else deletedHeader :: (containerPruneAction envMix).deleted) := by
  have h := C6_report_format envMix true "default" [⟨"a1"⟩, ⟨"b2"⟩, ⟨"c3"⟩]
    rfl rfl (Or.inl rfl) rfl rfl
  simpa using h

/-- Environment refuting C7: client creation fails although the namespace
flag reads fine and enumeration would succeed. -/
def envClientFail : Env where
  newClient := .error "cannot connect to containerd"
  getForce := .ok true
  confirmToken := ""
  getNamespace := .ok "default"
  containers := .ok []
  removeContainer := fun _ _ _ _ => .ok

/-- C7 counterexample: the command returns a non-nil error (non-zero exit)
on a run where the namespace flag reads successfully and enumeration
succeeds — client creation failed — so "non-zero only in exactly two cases:
namespace flag unreadable or enumeration fails" is false of the code. -/
theorem C7_counterexample :
    (containerPruneAction envClientFail).err
        = some "cannot connect to containerd"
      ∧ envClientFail.getNamespace = .ok "default"
      ∧ envClientFail.containers = .ok [] := ⟨rfl, rfl, rfl⟩

/-- C7 amended: the command returns nil on every completed run of the
workflow (confirmed-and-run or user-declined), and returns a non-nil error
only when client creation, the force-flag read, the namespace-flag read, or
enumeration fails. -/
theorem C7_exit_behavior (env : Env) :
    (∀ e, (containerPruneAction env).err = some e →
        env.newClient = .error e ∨ env.getForce = .error e
          ∨ env.getNamespace = .error e ∨ env.containers = .error e)
      ∧ (∀ ns cs, env.newClient = .ok () →
          (∃ f, env.getForce = .ok f) →
          env.getNamespace = .ok ns → env.containers = .ok cs →
          (containerPruneAction env).err = none)
      ∧ (env.newClient = .ok () → env.getForce = .ok false →
          toLowerGo env.confirmToken ≠ "y" →
          (containerPruneAction env).err = none) := by
  refine ⟨?_, ?_, ?_⟩
  · intro e he
    cases hc : env.newClient with
    | error e' =>
        simp [containerPruneAction, hc] at he
        subst he
        exact Or.inl rfl
    | ok u =>
        cases u
        cases hf : env.getForce with
        | error e' =>
            simp [containerPruneAction, hc, hf] at he
            subst he
            exact Or.inr (Or.inl rfl)
        | ok f =>
            by_cases hgate : (!f && (toLowerGo env.confirmToken != "y")) = true
            · simp [containerPruneAction, hc, hf, hgate] at he
            · cases hn : env.getNamespace with
              | error e' =>
                  simp [containerPruneAction, hc, hf, hgate, hn] at he
                  subst he
                  exact Or.inr (Or.inr (Or.inl rfl))
              | ok ns =>
                  cases hcts : env.containers with
                  | error e' =>
                      simp [containerPruneAction, hc, hf, hgate, hn, hcts] at he
                      subst he
                      exact Or.inr (Or.inr (Or.inr rfl))
                  | ok cs =>
                      simp [containerPruneAction, hc, hf, hgate, hn, hcts] at he
  · rintro ns cs hc ⟨f, hf⟩ hn hcts
    by_cases hgate : (!f && (toLowerGo env.confirmToken != "y")) = true
    · simp [containerPruneAction, hc, hf, hgate]
    · simp [containerPruneAction, hc, hf, hgate, hn, hcts]
  · intro hc hf hny
    simp [containerPruneAction, hc, hf, hny]

/-- C7 amended witness: the declined run returns nil. -/
theorem C7_exit_behavior_witness :
    (containerPruneAction envDecline).err = none :=
  (C7_exit_behavior envDecline).2.2 rfl rfl (by decide)

/-- C8: force=false with confirmation token "n": no enumeration call, no
removal call, output is just the prompt (empty report), deleted empty, nil
error. -/
theorem C8_decline_n (env : Env)
    (hc : env.newClient = .ok ())
    (hf : env.getForce = .ok false)
    (ht : env.confirmToken = "n") :
    (containerPruneAction env).listCalls = 0
      ∧ (containerPruneAction env).removalCalls = []
      ∧ (containerPruneAction env).stdout = [promptText]
      ∧ (containerPruneAction env).deleted = []
      ∧ (containerPruneAction env).err = none := by
  have hny : toLowerGo env.confirmToken ≠ "y" := by rw [ht]; decide
  rw [C2_gate_declines env hc hf hny]
  exact ⟨rfl, rfl, rfl, rfl, rfl⟩

/-- C8 witness: the concrete declined run. -/
theorem C8_decline_n_witness :
    (containerPruneAction envDecline).listCalls = 0
      ∧ (containerPruneAction envDecline).removalCalls = []
      ∧ (containerPruneAction envDecline).stdout = [promptText]
      ∧ (containerPruneAction envDecline).deleted = []
      ∧ (containerPruneAction envDecline).err = none :=
  C8_decline_n envDecline rfl rfl rfl

/-- C9: every enumerated container receives exactly one removal call, in
enumeration order, with the current namespace, per-instance force `false`
and best-effort `true`. -/
theorem C9_removal_call_arguments (env : Env) (force : Bool) (ns : String)
    (cs : List Container)
    (hc : env.newClient = .ok ())
    (hf : env.getForce = .ok force)
    (hg : force = true ∨ toLowerGo env.confirmToken = "y")
    (hn : env.getNamespace = .ok ns)
    (he : env.containers = .ok cs) :
    (containerPruneAction env).removalCalls
      = cs.map fun c => ((c.id, ns, false, true) : RemovalCall) := by
  rw [run_of_reaches_report env force ns cs hc hf hg hn he]
  exact pruneLoop_calls _ _ _

/-- C9 witness: the mixed run issues three calls with `false, true`. -/
theorem C9_removal_call_arguments_witness :
    (containerPruneAction envMix).removalCalls
      = ([⟨"a1"⟩, ⟨"b2"⟩, ⟨"c3"⟩] : List Container).map
          fun c => ((c.id, "default", false, true) : RemovalCall) :=
  C9_removal_call_arguments envMix true "default" [⟨"a1"⟩, ⟨"b2"⟩, ⟨"c3"⟩]
    rfl rfl (Or.inl rfl) rfl rfl

/-- C10: client creation and the force-flag read precede the prompt: if
either fails, the run returns that error with nothing printed, no token
read, and no removal attempted. -/
theorem C10_pre_gate_failures (env : Env) :
    (∀ e, env.newClient = .error e →
        containerPruneAction env = ⟨some e, [], [], 0, 0, [], []⟩)
      ∧ (∀ e, env.newClient = .ok () → env.getForce = .error e →
          containerPruneAction env = ⟨some e, [], [], 0, 0, [], []⟩) := by
  constructor
  · intro e hc
    simp [containerPruneAction, hc]
  · intro e hc hf
    simp [containerPruneAction, hc, hf]

/-- C10 witness: the failed-client run prints nothing, reads nothing,
removes nothing, and returns the client error. -/
theorem C10_pre_gate_failures_witness :
    containerPruneAction envClientFail
      = ⟨some "cannot connect to containerd", [], [], 0, 0, [], []⟩ :=
  (C10_pre_gate_failures envClientFail).1 "cannot connect to containerd" rfl

end ContainerPrune
